import Mathlib

/-!
Verification development for the geozarr-toolkit convention model and
validation engine (src/geozarr_toolkit).

The Python attribute mappings are JSON-compatible dictionaries with string
keys.  We embed them as association lists over a JSON value type; machine
floats are embedded as rationals.  Pydantic record construction is embedded
as an explicit validation function returning either the validated record or
the list of field/model error messages (errors are modelled by the message
text of the raised ValueError / pydantic type error; the numeric-string
coercions of pydantic lax mode are not exercised by any theorem below).
Python statements that can raise an uncaught exception (for example
iterating a non-iterable, or unpacking a non-mapping with a double star)
are embedded in `Except String`, the error being the exception description.
The CRS authority lookup performed through pyproj is an external capability
and is taken as an explicit boolean oracle parameter `resolve`.
-/

set_option linter.unusedVariables false

/-- JSON-compatible value, as stored in a Zarr attribute mapping. -/
inductive Json where
  | null : Json
  | bool : Bool → Json
  | num : ℚ → Json
  | str : String → Json
  | arr : List Json → Json
  | obj : List (String × Json) → Json

/-- A Python dictionary with string keys, in insertion order. -/
abbrev Attrs := List (String × Json)

/-- A single ASCII apostrophe, used inside error-message strings. -/
def apos : String := String.mk [Char.ofNat 39]

/-- Dictionary lookup: first entry with the given key (Python dict access). -/
def pyLookup {α : Type} (l : List (String × α)) (k : String) : Option α :=
  match l with
  | [] => none
  | kv :: rest => if kv.1 == k then some kv.2 else pyLookup rest k

/-- Python `k in d` membership test on a dictionary. -/
def hasKey (l : Attrs) (k : String) : Bool :=
  (pyLookup l k).isSome

/-- Python `d.get(k)`: missing keys give `None`. -/
def pyGet (l : Attrs) (k : String) : Json :=
  (pyLookup l k).getD Json.null

/-- Python truthiness of a JSON value. -/
def pyTruthy : Json → Bool
  | Json.null => false
  | Json.bool b => b
  | Json.num q => !(q == 0)
  | Json.str s => !(s == "")
  | Json.arr l => !l.isEmpty
  | Json.obj l => !l.isEmpty

/-- Whether the value is the given string (Python `v == "s"`, false for
non-strings and for `None`). -/
def jsonIsStr (j : Json) (s : String) : Bool :=
  match j with
  | Json.str t => t == s
  | _ => false

/-- Pydantic field lookup with `populate_by_name = True`: the alias key is
consulted first, then the plain field name. -/
def pyGetField (attrs : Attrs) (al nm : String) : Option Json :=
  match pyLookup attrs al with
  | some v => some v
  | none => pyLookup attrs nm

/-- Python iteration `for x in v`: lists yield their items, strings their
characters, dictionaries their keys; other values raise TypeError. -/
def pyIterEntries : Json → Option (List Json)
  | Json.arr xs => some xs
  | Json.str s => some (s.data.map (fun c => Json.str (String.mk [c])))
  | Json.obj kvs => some (kvs.map (fun kv => Json.str kv.1))
  | _ => none

/-- The single error message carried by a failed decode, if any. -/
def errsOfE {α : Type} : Except String α → List String
  | Except.ok _ => []
  | Except.error e => [e]

/-! ### Canonical convention identities (conventions/spatial.py, proj.py,
multiscales.py) -/

/-- SPATIAL_UUID from conventions/spatial.py. -/
def SPATIAL_UUID : String := "689b58e2-cf7b-45e0-9fff-9cfc0883d6b4"

/-- PROJ_UUID from conventions/proj.py. -/
def PROJ_UUID : String := "f17cb550-5864-4468-aeb7-f3180cfb622f"

/-- MULTISCALES_UUID from conventions/multiscales.py. -/
def MULTISCALES_UUID : String := "d35379db-88df-4056-af3a-620245f8e347"

/-! ### Convention detector (helpers/validation.py, detect_conventions) -/

/-- Append `x` when `c` holds and `x` is not already detected (the body of
each conditional inside the zarr_conventions scan of detect_conventions). -/
def addIfNew (acc : List String) (c : Bool) (x : String) : List String :=
  if c && !(acc.contains x) then acc ++ [x] else acc

/-- One iteration of the `for conv in attrs["zarr_conventions"]` loop of
detect_conventions: non-dictionary entries are skipped silently. -/
def detectEntryStep (acc : List String) (conv : Json) : List String :=
  match conv with
  | Json.obj kvs =>
      let uuid := pyGet kvs "uuid"
      let nm := pyGet kvs "name"
      addIfNew
        (addIfNew
          (addIfNew acc (jsonIsStr uuid SPATIAL_UUID || jsonIsStr nm "spatial:") "spatial")
          (jsonIsStr uuid PROJ_UUID || jsonIsStr nm "proj:") "proj")
        (jsonIsStr uuid MULTISCALES_UUID || jsonIsStr nm "multiscales") "multiscales"
  | _ => acc

/-- Steps 1-3 of detect_conventions: spatial when the spatial:dimensions
key is present, then proj when any key starts with the proj: prefix, then
multiscales when the multiscales key is present.  The three conditional
appends of the source are written as one append chain. -/
def detectSeed (attrs : Attrs) : List String :=
  ((if hasKey attrs "spatial:dimensions" then ["spatial"] else [])
      ++ (if attrs.any (fun kv => kv.1.startsWith "proj:") then ["proj"] else []))
    ++ (if hasKey attrs "multiscales" then ["multiscales"] else [])

/-- detect_conventions (helpers/validation.py lines 139-182).  Iterating a
non-iterable zarr_conventions value raises TypeError in Python, embedded
here as the `Except.error` case. -/
def detect_conventions (attrs : Attrs) : Except String (List String) :=
  match pyLookup attrs "zarr_conventions" with
  | none => Except.ok (detectSeed attrs)
  | some v =>
      match pyIterEntries v with
      | none => Except.error "TypeError: zarr_conventions object is not iterable"
      | some entries => Except.ok (entries.foldl detectEntryStep (detectSeed attrs))

/-- Modelled from the spec (section 4.2): the four detection steps in fixed
order, first occurrence wins, non-mapping registry entries skipped silently.
The spec treats the zarr_conventions value as a registry array; attribute
mappings whose zarr_conventions value is not a list are outside its
algorithm, and this definition then performs only steps 1-3 on them. -/
def detect_spec (attrs : Attrs) : List String :=
  match pyLookup attrs "zarr_conventions" with
  | some (Json.arr entries) => entries.foldl detectEntryStep (detectSeed attrs)
  | _ => detectSeed attrs

/-! ### Registry well-formedness check (helpers/validation.py,
validate_zarr_conventions) -/

/-- Error message for a registry entry with no usable identifier. -/
def missingIdMsg (i : Nat) : String :=
  "Convention " ++ toString i ++ " must have at least one of: uuid, schema_url, spec_url"

/-- Error message for a non-dictionary registry entry. -/
def notDictMsg (i : Nat) : String :=
  "Convention " ++ toString i ++ " must be a dictionary"

/-- Body of the `for i, conv in enumerate(conventions)` loop of
validate_zarr_conventions: errors contributed by the entry at index `i`. -/
def conventionEntryErrors (i : Nat) (conv : Json) : List String :=
  match conv with
  | Json.obj kvs =>
      if pyTruthy (pyGet kvs "uuid") || pyTruthy (pyGet kvs "schema_url")
          || pyTruthy (pyGet kvs "spec_url") then []
      else [missingIdMsg i]
  | _ => [notDictMsg i]

/-- Errors of all registry entries starting at index `i`. -/
def enumErrors (i : Nat) : List Json → List String
  | [] => []
  | conv :: rest => conventionEntryErrors i conv ++ enumErrors (i + 1) rest

/-- validate_zarr_conventions (helpers/validation.py lines 103-136). -/
def validate_zarr_conventions (attrs : Attrs) : Bool × List String :=
  match pyLookup attrs "zarr_conventions" with
  | none => (false, ["Missing " ++ apos ++ "zarr_conventions" ++ apos ++ " key in attributes"])
  | some (Json.arr l) =>
      let es := enumErrors 0 l
      (es.isEmpty, es)
  | some _ => (false, ["zarr_conventions must be a list"])

/-! ### Multiscales schema (conventions/multiscales.py) -/

/-- Decode a required `str` field (pydantic). -/
def decodeReqStr : Option Json → Except String String
  | none => Except.error "Field required"
  | some (Json.str s) => Except.ok s
  | some _ => Except.error "Input should be a valid string"

/-- Decode a `str | MISSING` field (pydantic; the MISSING sentinel stands
for an absent key, `None` is not accepted). -/
def decodeOptStrM : Option Json → Except String (Option String)
  | none => Except.ok none
  | some (Json.str s) => Except.ok (some s)
  | some _ => Except.error "Input should be a valid string"

/-- Decode a homogeneous list of JSON numbers. -/
def decodeNums : List Json → Except String (List ℚ)
  | [] => Except.ok []
  | Json.num q :: rest => (decodeNums rest).map (fun l => q :: l)
  | _ :: _ => Except.error "Input should be a valid number"

/-- Decode a `tuple[float, ...]` field value (pydantic). -/
def decodeNumTuple : Json → Except String (List ℚ)
  | Json.arr xs => decodeNums xs
  | _ => Except.error "Input should be a valid tuple"

/-- Errors of validating a `Transform` record (conventions/multiscales.py,
class Transform: optional scale and translation tuples, extra allowed). -/
def transformErrors (j : Json) : List String :=
  match j with
  | Json.obj kvs =>
      (match pyLookup kvs "scale" with
       | none => []
       | some v => errsOfE (decodeNumTuple v))
      ++ (match pyLookup kvs "translation" with
          | none => []
          | some v => errsOfE (decodeNumTuple v))
  | _ => ["Input should be a valid dictionary"]

/-- Errors of validating one `ScaleLevel` record (conventions/multiscales.py,
class ScaleLevel: required asset, optional derived_from / transform /
resampling_method, extra allowed). -/
def scaleLevelErrors (j : Json) : List String :=
  match j with
  | Json.obj kvs =>
      errsOfE (decodeReqStr (pyLookup kvs "asset"))
      ++ errsOfE (decodeOptStrM (pyLookup kvs "derived_from"))
      ++ (match pyLookup kvs "transform" with
          | none => []
          | some t => transformErrors t)
      ++ errsOfE (decodeOptStrM (pyLookup kvs "resampling_method"))
  | _ => ["Input should be a valid dictionary"]

/-- Message of Multiscales.validate_layout_not_empty. -/
def msLayoutMsg : String := "multiscales layout must have at least one level"

/-- Errors of constructing `Multiscales(**kvs)` (conventions/multiscales.py,
class Multiscales): the layout field is a required tuple of ScaleLevel with
an after-validator rejecting the empty tuple; resampling_method is an
optional string; extra keys are allowed. -/
def multiscalesErrors (kvs : Attrs) : List String :=
  (match pyLookup kvs "layout" with
   | none => ["Field required"]
   | some (Json.arr xs) =>
       let es := (xs.map scaleLevelErrors).flatten
       if es.isEmpty then (if xs.isEmpty then [msLayoutMsg] else []) else es
   | some _ => ["Input should be a valid tuple"])
  ++ errsOfE (decodeOptStrM (pyLookup kvs "resampling_method"))

/-- validate_multiscales (helpers/validation.py lines 79-100).  The call
`Multiscales(**attrs["multiscales"])` raises an uncaught TypeError when the
value is not a mapping; only ValidationError is caught and translated. -/
def validate_multiscales (attrs : Attrs) : Except String (Bool × List String) :=
  match pyLookup attrs "multiscales" with
  | none =>
      Except.ok (false, ["Missing " ++ apos ++ "multiscales" ++ apos ++ " key in attributes"])
  | some (Json.obj kvs) =>
      Except.ok ((multiscalesErrors kvs).isEmpty, multiscalesErrors kvs)
  | some _ => Except.error "TypeError: argument after double-star must be a mapping"

/-! ### Proj schema (conventions/proj.py) -/

/-- Python `re.match` against the compiled pattern of conventions/proj.py,
an anchored `[A-Z]+ : [0-9]+` with the dollar anchor, which in Python also
matches just before one trailing newline. -/
def pyPatternMatch (s : String) : Bool :=
  let cs := if s.data.getLast? == some (Char.ofNat 10) then s.data.dropLast else s.data
  match cs.span (fun c => decide (Char.ofNat 65 ≤ c) && decide (c ≤ Char.ofNat 90)) with
  | (as, rest) =>
      match rest with
      | c :: ds =>
          c == Char.ofNat 58 && !as.isEmpty && !ds.isEmpty
            && ds.all (fun d => decide (Char.ofNat 48 ≤ d) && decide (d ≤ Char.ofNat 57))
      | [] => false

/-- Python `s.split(":", 1)` on a string containing a colon: the parts
before and after the first colon. -/
def splitColon1 (s : String) : String × String :=
  match s.data.span (fun c => !(c == Char.ofNat 58)) with
  | (pre, _ :: post) => (String.mk pre, String.mk post)
  | (pre, []) => (String.mk pre, "")

/-- Message of Proj.validate_code_format for an offending value. -/
def patternMsg (v : String) : String :=
  "proj:code must match pattern AUTHORITY:CODE (e.g. " ++ apos ++ "EPSG:4326" ++ apos
    ++ "), got " ++ apos ++ v ++ apos

/-- Message of Proj.validate_at_least_one_crs. -/
def atLeastOneMsg : String :=
  "At least one of proj:code, proj:wkt2, or proj:projjson must be provided"

/-- Message of Proj.validate_code_resolves for a rejected code. -/
def resolveMsg (v : String) : String :=
  "proj:code " ++ apos ++ v ++ apos ++ " does not resolve to a known CRS"

/-- Decode the `code : str | None` field including its field validator
validate_code_format (pattern check). -/
def decodeCodeField : Option Json → Except String (Option String)
  | none => Except.ok none
  | some Json.null => Except.ok none
  | some (Json.str s) =>
      if pyPatternMatch s then Except.ok (some s) else Except.error (patternMsg s)
  | some _ => Except.error "Input should be a valid string"

/-- Decode a `str | None` field (pydantic). -/
def decodeOptStr : Option Json → Except String (Option String)
  | none => Except.ok none
  | some Json.null => Except.ok none
  | some (Json.str s) => Except.ok (some s)
  | some _ => Except.error "Input should be a valid string"

/-- Decode a `dict[str, Any] | None` field (pydantic). -/
def decodeOptObj : Option Json → Except String (Option (List (String × Json)))
  | none => Except.ok none
  | some Json.null => Except.ok none
  | some (Json.obj kvs) => Except.ok (some kvs)
  | some _ => Except.error "Input should be a valid dictionary"

/-- Python truthiness of an optional string field value. -/
def optStrTruthy : Option String → Bool
  | none => false
  | some s => !(s == "")

/-- Python truthiness of an optional dictionary field value. -/
def optObjTruthy : Option (List (String × Json)) → Bool
  | none => false
  | some o => !o.isEmpty

/-- The validated Proj record (conventions/proj.py, class Proj), with the
extra keys retained by `extra = "allow"`. -/
structure ProjRec where
  code : Option String
  wkt2 : Option String
  projjson : Option (List (String × Json))
  extra : Attrs

/-- Keys consumed by the three Proj fields (alias and plain name). -/
def projConsumedKeys : List String :=
  ["proj:code", "code", "proj:wkt2", "wkt2", "proj:projjson", "projjson"]

/-- The attribute entries kept as extra keys by Proj. -/
def projExtras (attrs : Attrs) : Attrs :=
  attrs.filter (fun kv => !(projConsumedKeys.contains kv.1))

/-- Constructing `Proj(**attrs)` (conventions/proj.py): field validation
(types and the code pattern) first; when every field validates, the model
validators run in order: validate_at_least_one_crs (Python truthiness of
the three fields) then validate_code_resolves (the external authority
lookup `resolve` applied to the parts around the first colon; a failed or
raising lookup is rejection). -/
def projValidate (resolve : String → String → Bool) (attrs : Attrs) :
    Except (List String) ProjRec :=
  match decodeCodeField (pyGetField attrs "proj:code" "code"),
      decodeOptStr (pyGetField attrs "proj:wkt2" "wkt2"),
      decodeOptObj (pyGetField attrs "proj:projjson" "projjson") with
  | Except.ok c, Except.ok w, Except.ok p =>
      if optStrTruthy c || optStrTruthy w || optObjTruthy p then
        match c with
        | some v =>
            if resolve (splitColon1 v).1 (splitColon1 v).2 then
              Except.ok ⟨c, w, p, projExtras attrs⟩
            else Except.error [resolveMsg v]
        | none => Except.ok ⟨c, w, p, projExtras attrs⟩
      else Except.error [atLeastOneMsg]
  | c, w, p => Except.error (errsOfE c ++ errsOfE w ++ errsOfE p)

/-- validate_proj (helpers/validation.py lines 58-76). -/
def validate_proj (resolve : String → String → Bool) (attrs : Attrs) : Bool × List String :=
  match projValidate resolve attrs with
  | Except.ok _ => (true, [])
  | Except.error es => (false, es)

/-! ### Spatial schema (conventions/spatial.py) -/

/-- Decode a required `list[str]` field (pydantic). -/
def decodeStrs : List Json → Except String (List String)
  | [] => Except.ok []
  | Json.str s :: rest => (decodeStrs rest).map (fun l => s :: l)
  | _ :: _ => Except.error "Input should be a valid string"

/-- Decode the required `dimensions : list[str]` field. -/
def decodeStrList : Option Json → Except String (List String)
  | none => Except.error "Field required"
  | some (Json.arr xs) => decodeStrs xs
  | some _ => Except.error "Input should be a valid list"

/-- Decode a `list[float] | None` field (pydantic). -/
def decodeOptNumList : Option Json → Except String (Option (List ℚ))
  | none => Except.ok none
  | some Json.null => Except.ok none
  | some (Json.arr xs) => (decodeNums xs).map some
  | some _ => Except.error "Input should be a valid list"

/-- Decode a homogeneous list of JSON integers. -/
def decodeInts : List Json → Except String (List Int)
  | [] => Except.ok []
  | Json.num q :: rest =>
      if q.den == 1 then (decodeInts rest).map (fun l => q.num :: l)
      else Except.error "Input should be a valid integer"
  | _ :: _ => Except.error "Input should be a valid integer"

/-- Decode a `list[int] | None` field (pydantic). -/
def decodeOptIntList : Option Json → Except String (Option (List Int))
  | none => Except.ok none
  | some Json.null => Except.ok none
  | some (Json.arr xs) => (decodeInts xs).map some
  | some _ => Except.error "Input should be a valid list"

/-- Decode a `str` field with a default value for an absent key. -/
def decodeStrD (dflt : String) : Option Json → Except String String
  | none => Except.ok dflt
  | some (Json.str s) => Except.ok s
  | some _ => Except.error "Input should be a valid string"

/-- Message of Spatial.validate_dimensions_not_empty. -/
def dimsMsg : String := "spatial:dimensions must contain at least one dimension"

/-- Message of Spatial.validate_transform_length. -/
def transformLenMsg : String :=
  "spatial:transform must have exactly 6 coefficients for 2D affine"

/-- Message of Spatial.validate_registration. -/
def registrationMsg : String :=
  "spatial:registration must be " ++ apos ++ "pixel" ++ apos ++ " or "
    ++ apos ++ "node" ++ apos

/-- The validated Spatial record (conventions/spatial.py, class Spatial),
with the extra keys retained by `extra = "allow"`. -/
structure SpatialRec where
  dimensions : List String
  bbox : Option (List ℚ)
  transform_type : String
  transform : Option (List ℚ)
  shape : Option (List Int)
  registration : String
  extra : Attrs

/-- Keys consumed by the six Spatial fields (alias and plain name). -/
def spatialConsumedKeys : List String :=
  ["spatial:dimensions", "dimensions", "spatial:bbox", "bbox",
   "spatial:transform_type", "transform_type", "spatial:transform", "transform",
   "spatial:shape", "shape", "spatial:registration", "registration"]

/-- The attribute entries kept as extra keys by Spatial. -/
def spatialExtras (attrs : Attrs) : Attrs :=
  attrs.filter (fun kv => !(spatialConsumedKeys.contains kv.1))

/-- Constructing `Spatial(**attrs)` (conventions/spatial.py): field type
validation first; then the model validators in source order:
validate_dimensions_not_empty, validate_transform_length,
validate_registration. -/
def spatialValidate (attrs : Attrs) : Except (List String) SpatialRec :=
  match decodeStrList (pyGetField attrs "spatial:dimensions" "dimensions"),
      decodeOptNumList (pyGetField attrs "spatial:bbox" "bbox"),
      decodeStrD "affine" (pyGetField attrs "spatial:transform_type" "transform_type"),
      decodeOptNumList (pyGetField attrs "spatial:transform" "transform"),
      decodeOptIntList (pyGetField attrs "spatial:shape" "shape"),
      decodeStrD "pixel" (pyGetField attrs "spatial:registration" "registration") with
  | Except.ok dims, Except.ok bbox, Except.ok tt, Except.ok tr, Except.ok sh, Except.ok reg =>
      if dims.isEmpty then Except.error [dimsMsg]
      else if (match tr with | some l => !(l.length == 6) | none => false) then
        Except.error [transformLenMsg]
      else if !(reg == "pixel" || reg == "node") then Except.error [registrationMsg]
      else Except.ok ⟨dims, bbox, tt, tr, sh, reg, spatialExtras attrs⟩
  | d, b, t, r, s, g =>
      Except.error (errsOfE d ++ errsOfE b ++ errsOfE t ++ errsOfE r ++ errsOfE s ++ errsOfE g)

/-- validate_spatial (helpers/validation.py lines 27-55). -/
def validate_spatial (attrs : Attrs) : Bool × List String :=
  match spatialValidate attrs with
  | Except.ok _ => (true, [])
  | Except.error es => (false, es)

/-! ### Validation engine (helpers/validation.py, validate_attrs) -/

/-- The spatial entry of the result mapping, present when requested. -/
def spatialSegment (attrs : Attrs) (convs : List String) : List (String × List String) :=
  if convs.contains "spatial" then [("spatial", (validate_spatial attrs).2)] else []

/-- The proj entry of the result mapping, present when requested. -/
def projSegment (resolve : String → String → Bool) (attrs : Attrs) (convs : List String) :
    List (String × List String) :=
  if convs.contains "proj" then [("proj", (validate_proj resolve attrs).2)] else []

/-- The multiscales entry of the result mapping; validate_multiscales can
raise (non-mapping value), which propagates out of validate_attrs. -/
def multiscalesSegment (attrs : Attrs) (convs : List String) :
    Except String (List (String × List String)) :=
  if convs.contains "multiscales" then
    match validate_multiscales attrs with
    | Except.ok p => Except.ok [("multiscales", p.2)]
    | Except.error e => Except.error e
  else Except.ok []

/-- The registry entry of the result mapping, present whenever the
zarr_conventions key exists in the input. -/
def zarrSegment (attrs : Attrs) : List (String × List String) :=
  if hasKey attrs "zarr_conventions" then
    [("zarr_conventions", (validate_zarr_conventions attrs).2)]
  else []

/-- validate_attrs (helpers/validation.py lines 290-330): detect when no
convention list is given, then run each requested validator and always the
registry check; the result dictionary is built in source insertion order
(spatial, proj, multiscales, zarr_conventions). -/
def validate_attrs (resolve : String → String → Bool) (attrs : Attrs)
    (conventions : Option (List String)) : Except String (List (String × List String)) :=
  match (match conventions with
         | none => detect_conventions attrs
         | some cs => Except.ok cs) with
  | Except.error e => Except.error e
  | Except.ok convs =>
      match multiscalesSegment attrs convs with
      | Except.error e => Except.error e
      | Except.ok s3 =>
          Except.ok (spatialSegment attrs convs ++ projSegment resolve attrs convs
            ++ s3 ++ zarrSegment attrs)

/-- Aggregation rule of the application layer (application/app.py lines
92-96): a convention passes when its error list is empty, and the overall
verdict is the conjunction over all entries of the result mapping. -/
def overallValid (r : List (String × List String)) : Bool :=
  r.all (fun p => p.2.isEmpty)

/-- A CRS authority oracle that resolves nothing, used to instantiate
theorems whose inputs never reach the authority lookup. -/
def noResolve : String → String → Bool := fun _ _ => false

/-! ### Metadata builders (helpers/metadata.py) -/

/-- Encode a list of strings as a JSON array. -/
def encStrList (l : List String) : Json := Json.arr (l.map Json.str)

/-- Encode an optional list of rationals (a Python float list or None). -/
def encOptNumList : Option (List ℚ) → Json
  | none => Json.null
  | some l => Json.arr (l.map Json.num)

/-- Encode an optional list of integers (a Python int list or None). -/
def encOptIntList : Option (List Int) → Json
  | none => Json.null
  | some l => Json.arr (l.map (fun i => Json.num (i : ℚ)))

/-- Encode an optional string (a Python str or None). -/
def encOptStr : Option String → Json
  | none => Json.null
  | some s => Json.str s

/-- Encode an optional dictionary (a Python dict or None). -/
def encOptObj : Option (List (String × Json)) → Json
  | none => Json.null
  | some o => Json.obj o

/-- The Python idiom `list(x) if x else None` on an optional sequence:
both None and the empty (falsy) sequence become None. -/
def pyOptTruthy {α : Type} : Option (List α) → Option (List α)
  | none => none
  | some l => if l.isEmpty then none else some l

/-- `model_dump(exclude_none=True, by_alias=True)` of a validated Spatial
record: fields in declaration order under their alias keys, None-valued
optional fields omitted, extra keys appended. -/
def spatialDump (r : SpatialRec) : Attrs :=
  [("spatial:dimensions", encStrList r.dimensions)]
  ++ (match r.bbox with
      | some l => [("spatial:bbox", Json.arr (l.map Json.num))]
      | none => [])
  ++ [("spatial:transform_type", Json.str r.transform_type)]
  ++ (match r.transform with
      | some l => [("spatial:transform", Json.arr (l.map Json.num))]
      | none => [])
  ++ (match r.shape with
      | some l => [("spatial:shape", Json.arr (l.map (fun i => Json.num (i : ℚ))))]
      | none => [])
  ++ [("spatial:registration", Json.str r.registration)]
  ++ r.extra

/-- create_spatial_attrs (helpers/metadata.py lines 57-94): construct a
Spatial record from keyword arguments (plain field names; empty sequences
are turned into None by truthiness) and dump it by alias.  A validation
failure propagates as a raised ValidationError, embedded as the error
case. -/
def create_spatial_attrs (dimensions : List String) (transform bbox : Option (List ℚ))
    (shape : Option (List Int)) (registration : String) : Except (List String) Attrs :=
  (spatialValidate
      [("dimensions", encStrList dimensions),
       ("transform", encOptNumList (pyOptTruthy transform)),
       ("bbox", encOptNumList (pyOptTruthy bbox)),
       ("shape", encOptIntList (pyOptTruthy shape)),
       ("registration", Json.str registration)]).map spatialDump

/-- `model_dump(exclude_none=True, by_alias=True)` of a validated Proj
record. -/
def projDump (r : ProjRec) : Attrs :=
  (match r.code with | some s => [("proj:code", Json.str s)] | none => [])
  ++ (match r.wkt2 with | some s => [("proj:wkt2", Json.str s)] | none => [])
  ++ (match r.projjson with | some o => [("proj:projjson", Json.obj o)] | none => [])
  ++ r.extra

/-- create_proj_attrs (helpers/metadata.py lines 97-124): construct a Proj
record from keyword arguments and dump it by alias. -/
def create_proj_attrs (resolve : String → String → Bool) (code wkt2 : Option String)
    (projjson : Option (List (String × Json))) : Except (List String) Attrs :=
  (projValidate resolve
      [("code", encOptStr code), ("wkt2", encOptStr wkt2),
       ("projjson", encOptObj projjson)]).map projDump

/-- Python `d1.update(d2)`: values of keys already in `d1` are replaced in
place, new keys are appended in order. -/
def dictUpdate (m1 m2 : Attrs) : Attrs :=
  m1.map (fun kv => match pyLookup m2 kv.1 with
    | some v => (kv.1, v)
    | none => kv)
  ++ m2.filter (fun kv => !(hasKey m1 kv.1))

/-- The min/max normalization of from_geotransform: swap the pair when the
first component exceeds the second. -/
def normPair (p : ℚ × ℚ) : ℚ × ℚ := if p.1 > p.2 then (p.2, p.1) else p

/-- from_geotransform (helpers/metadata.py lines 188-252): reorder the
GDAL 6-tuple (c, a, b, f, d, e) into the convention ordering
[a, b, c, d, e, f], derive the bounding box corners from the shape
(height, width), normalize each axis by swapping, then build the spatial
attributes and merge in the proj attributes built from the WKT string. -/
def from_geotransform (resolve : String → String → Bool) (c a b f d e : ℚ)
    (crs_wkt : String) (height width : Int) (dimensions : Option (List String)) :
    Except (List String) Attrs :=
  match create_spatial_attrs (dimensions.getD ["Y", "X"]) (some [a, b, c, d, e, f])
      (some [(normPair (c, c + a * (width : ℚ) + b * (height : ℚ))).1,
             (normPair (f + d * (width : ℚ) + e * (height : ℚ), f)).1,
             (normPair (c, c + a * (width : ℚ) + b * (height : ℚ))).2,
             (normPair (f + d * (width : ℚ) + e * (height : ℚ), f)).2])
      (some [height, width]) "pixel" with
  | Except.error es => Except.error es
  | Except.ok sp =>
      match create_proj_attrs resolve none (some crs_wkt) none with
      | Except.error es => Except.error es
      | Except.ok pr => Except.ok (dictUpdate sp pr)

/-! ### Helper lemmas -/

theorem pyLookup_append_none {α : Type} (l1 l2 : List (String × α)) (k : String)
    (h : pyLookup l1 k = none) :
    pyLookup (l1 ++ l2) k = pyLookup l2 k := by
  induction l1 with
  | nil => rfl
  | cons kv rest ih =>
      rw [List.cons_append]
      cases hk : kv.1 == k with
      | true => simp [pyLookup, hk] at h
      | false =>
          simp only [pyLookup, hk, Bool.false_eq_true, if_false] at h ⊢
          exact ih h

theorem pyLookup_append_none₂ {α : Type} (l1 l2 : List (String × α)) (k : String)
    (h1 : pyLookup l1 k = none) (h2 : pyLookup l2 k = none) :
    pyLookup (l1 ++ l2) k = none :=
  (pyLookup_append_none l1 l2 k h1).trans h2

theorem spatialSegment_lookup (attrs : Attrs) (convs : List String) :
    pyLookup (spatialSegment attrs convs) "zarr_conventions" = none := by
  unfold spatialSegment
  split <;> rfl

theorem projSegment_lookup (resolve : String → String → Bool) (attrs : Attrs)
    (convs : List String) :
    pyLookup (projSegment resolve attrs convs) "zarr_conventions" = none := by
  unfold projSegment
  split <;> rfl

theorem multiscalesSegment_lookup (attrs : Attrs) (convs : List String)
    (s3 : List (String × List String)) (h : multiscalesSegment attrs convs = Except.ok s3) :
    pyLookup s3 "zarr_conventions" = none := by
  unfold multiscalesSegment at h
  split at h
  · cases hv : validate_multiscales attrs with
    | ok p =>
        rw [hv] at h
        simp only [Except.map] at h
        cases h
        rfl
    | error e => rw [hv] at h; simp [Except.map] at h
  · cases h
    rfl

theorem zarrSegment_lookup (attrs : Attrs) (hkey : hasKey attrs "zarr_conventions" = true) :
    pyLookup (zarrSegment attrs) "zarr_conventions"
      = some (validate_zarr_conventions attrs).2 := by
  simp only [zarrSegment, hkey, if_true]
  rfl

theorem enumErrors_nil (l : List Json)
    (hall : ∀ e ∈ l, ∃ kvs, e = Json.obj kvs ∧
      (pyTruthy (pyGet kvs "uuid") || pyTruthy (pyGet kvs "schema_url")
        || pyTruthy (pyGet kvs "spec_url")) = true) :
    ∀ i, enumErrors i l = [] := by
  induction l with
  | nil => intro i; rfl
  | cons x xs ih =>
      intro i
      obtain ⟨kvs, hx, ht⟩ := hall x (List.mem_cons_self x xs)
      subst hx
      have hrest := ih (fun e he => hall e (List.mem_cons_of_mem _ he))
      simp [enumErrors, conventionEntryErrors, ht, hrest (i + 1)]

theorem enumErrors_mem (l : List Json) :
    ∀ (i j : Nat) (kvs : List (String × Json)),
    l[j]? = some (Json.obj kvs) →
    (pyTruthy (pyGet kvs "uuid") || pyTruthy (pyGet kvs "schema_url")
      || pyTruthy (pyGet kvs "spec_url")) = false →
    missingIdMsg (i + j) ∈ enumErrors i l := by
  induction l with
  | nil => intro i j kvs h; simp at h
  | cons x xs ih =>
      intro i j kvs h hf
      cases j with
      | zero =>
          simp only [List.getElem?_cons_zero, Option.some.injEq] at h
          subst h
          simp [enumErrors, conventionEntryErrors, hf]
      | succ j =>
          simp only [List.getElem?_cons_succ] at h
          have hmem := ih (i + 1) j kvs h hf
          have harith : i + (j + 1) = (i + 1) + j := by omega
          rw [harith]
          exact List.mem_append_right _ hmem

/-- Claim C1: the claim states that validate_attrs never raises and that
every schema violation is translated into the per-convention error lists.
The code violates this: when the multiscales value is not a mapping,
`Multiscales(**attrs["multiscales"])` in validate_multiscales raises an
uncaught TypeError (only ValidationError is caught), which propagates out
of validate_attrs; this theorem evaluates the engine at the failing input,
an attribute mapping whose multiscales value is an (OME-NGFF style) list. -/
theorem validate_attrs_multiscales_nonmapping_raises :
    validate_attrs noResolve [("multiscales", Json.arr [])] none
      = Except.error "TypeError: argument after double-star must be a mapping" := by
  with_unfolding_all rfl

/-- Claim C2 counterexample: the claim states that a non-null value such as
an empty string counts as present for the at-least-one check.  The code
uses Python truthiness (`any([...])`), so constructing Proj with the
non-null empty-string wkt2 fails with the at-least-one error although the
claim says the check must pass. -/
theorem proj_empty_wkt2_rejected_cex :
    projValidate noResolve [("proj:wkt2", Json.str "")] = Except.error [atLeastOneMsg] := by
  with_unfolding_all rfl

/-- Claim C4: the mapping produced by the spatial builder with dimensions
Y, X and transform (10, 0, 500000, 0, -10, 5000000), re-validated through
validate_attrs, yields an entry for spatial with the empty error list. -/
theorem build_spatial_roundtrip_valid :
    ∃ m, create_spatial_attrs ["Y", "X"] (some [10, 0, 500000, 0, -10, 5000000]) none none
        "pixel" = Except.ok m ∧
      validate_attrs noResolve m none = Except.ok [("spatial", [])] :=
  ⟨_, by with_unfolding_all rfl, by with_unfolding_all rfl⟩

/-- Claim C9: validate_attrs on the empty mapping returns the empty result
mapping, and the aggregation rule of the application layer treats the
empty result as overall valid. -/
theorem validate_attrs_empty_mapping_valid :
    validate_attrs noResolve [] none = Except.ok [] ∧ overallValid [] = true :=
  ⟨by with_unfolding_all rfl, rfl⟩

/-- Claim C8: constructing Multiscales with an empty layout always fails,
with an error mentioning that the layout must have at least one level; the
first two conjuncts state this of the construction error list, the third
that validate_multiscales reports the same failing verdict. -/
theorem multiscales_empty_layout_rejected :
    ∀ (kvs : List (String × Json)), pyLookup kvs "layout" = some (Json.arr []) →
    msLayoutMsg ∈ multiscalesErrors kvs ∧ (multiscalesErrors kvs).isEmpty = false ∧
    (∀ attrs, pyLookup attrs "multiscales" = some (Json.obj kvs) →
      validate_multiscales attrs = Except.ok (false, multiscalesErrors kvs)) := by
  intro kvs h
  have hml : multiscalesErrors kvs
      = msLayoutMsg :: errsOfE (decodeOptStrM (pyLookup kvs "resampling_method")) := by
    unfold multiscalesErrors
    rw [h]
    rfl
  refine ⟨?_, ?_, ?_⟩
  · rw [hml]; exact List.mem_cons_self _ _
  · rw [hml]; rfl
  · intro attrs ha
    unfold validate_multiscales
    rw [ha]
    show Except.ok ((multiscalesErrors kvs).isEmpty, multiscalesErrors kvs)
      = Except.ok (false, multiscalesErrors kvs)
    rw [hml]
    rfl

/-- Claim C8 witness: the empty-layout rejection at the concrete mapping
with layout equal to the empty list. -/
theorem multiscales_empty_layout_rejected_witness :
    msLayoutMsg ∈ multiscalesErrors [("layout", Json.arr [])] ∧
    (multiscalesErrors [("layout", Json.arr [])]).isEmpty = false ∧
    (∀ attrs, pyLookup attrs "multiscales" = some (Json.obj [("layout", Json.arr [])]) →
      validate_multiscales attrs
        = Except.ok (false, multiscalesErrors [("layout", Json.arr [])])) :=
  multiscales_empty_layout_rejected [("layout", Json.arr [])] rfl

/-- Claim C10: the registry well-formedness check never rejects a mapping
entry for carrying unknown extra keys: when every entry is a mapping with
at least one truthy identifier among uuid, schema_url and spec_url, the
check passes with no errors, whatever other keys the entries carry (the
closed-schema identity record of conventions/common.py is not applied by
this check). -/
theorem registry_check_allows_extra_keys :
    ∀ (attrs : Attrs) (l : List Json),
    pyLookup attrs "zarr_conventions" = some (Json.arr l) →
    (∀ e ∈ l, ∃ kvs, e = Json.obj kvs ∧
      (pyTruthy (pyGet kvs "uuid") || pyTruthy (pyGet kvs "schema_url")
        || pyTruthy (pyGet kvs "spec_url")) = true) →
    validate_zarr_conventions attrs = (true, []) := by
  intro attrs l hl hall
  unfold validate_zarr_conventions
  rw [hl]
  simp [enumErrors_nil l hall 0]

/-- Claim C10 witness: an entry holding a truthy uuid together with
arbitrary extra keys passes the registry check. -/
theorem registry_check_allows_extra_keys_witness :
    validate_zarr_conventions
      [("zarr_conventions", Json.arr
        [Json.obj [("uuid", Json.str "u"), ("custom_key", Json.num 1),
                   ("another_key", Json.bool true)]])] = (true, []) :=
  registry_check_allows_extra_keys _ _ rfl
    (by
      intro e he
      simp only [List.mem_singleton] at he
      subst he
      exact ⟨_, rfl, by with_unfolding_all rfl⟩)

theorem addIfNew_nodup (acc : List String) (c : Bool) (x : String) (h : acc.Nodup) :
    (addIfNew acc c x).Nodup := by
  unfold addIfNew
  split
  · next hc =>
      have hx : ¬ x ∈ acc := by
        intro hmem
        have hcon : acc.contains x = true := by
          simpa using hmem
        rw [hcon] at hc
        simp at hc
      simp [List.nodup_append, h, hx]
  · exact h

theorem detectEntryStep_nodup (acc : List String) (conv : Json) (h : acc.Nodup) :
    (detectEntryStep acc conv).Nodup := by
  cases conv with
  | obj kvs => exact addIfNew_nodup _ _ _ (addIfNew_nodup _ _ _ (addIfNew_nodup _ _ _ h))
  | null => exact h
  | bool b => exact h
  | num q => exact h
  | str s => exact h
  | arr l => exact h

theorem foldl_detectEntryStep_nodup (entries : List Json) (acc : List String)
    (h : acc.Nodup) : (entries.foldl detectEntryStep acc).Nodup := by
  induction entries generalizing acc with
  | nil => exact h
  | cons x rest ih => exact ih _ (detectEntryStep_nodup _ _ h)

theorem detectSeed_nodup (attrs : Attrs) : (detectSeed attrs).Nodup := by
  unfold detectSeed
  split_ifs <;> decide

/-- Claim C3: detect_conventions follows the fixed detection algorithm of
the spec.  First conjunct: every successfully detected list has no
duplicates (first occurrence wins).  Second conjunct: whenever the
zarr_conventions key is absent or holds a registry list, detect_conventions
returns exactly the list computed by the spec-worded algorithm detect_spec.
Third conjunct: the concrete detection example of the claim. -/
theorem detect_conventions_follows_spec :
    (∀ (attrs : Attrs) (l : List String),
      detect_conventions attrs = Except.ok l → l.Nodup) ∧
    (∀ attrs : Attrs,
      (pyLookup attrs "zarr_conventions" = none ∨
        ∃ es, pyLookup attrs "zarr_conventions" = some (Json.arr es)) →
      detect_conventions attrs = Except.ok (detect_spec attrs)) ∧
    detect_conventions
      [("spatial:dimensions", Json.arr [Json.str "Y", Json.str "X"]),
       ("proj:code", Json.str "EPSG:4326"),
       ("multiscales", Json.obj [("layout", Json.arr [])])]
      = Except.ok ["spatial", "proj", "multiscales"] := by
  refine ⟨?_, ?_, by with_unfolding_all rfl⟩
  · intro attrs l h
    unfold detect_conventions at h
    cases hz : pyLookup attrs "zarr_conventions" with
    | none =>
        rw [hz] at h
        cases h
        exact detectSeed_nodup attrs
    | some v =>
        rw [hz] at h
        replace h :
            (match pyIterEntries v with
              | none => Except.error "TypeError: zarr_conventions object is not iterable"
              | some entries =>
                  Except.ok (List.foldl detectEntryStep (detectSeed attrs) entries))
              = Except.ok l := h
        cases hit : pyIterEntries v with
        | none => rw [hit] at h; cases h
        | some entries =>
            rw [hit] at h
            cases h
            exact foldl_detectEntryStep_nodup entries _ (detectSeed_nodup attrs)
  · intro attrs hz
    cases hz with
    | inl hnone => unfold detect_conventions detect_spec; rw [hnone]
    | inr hsome =>
        obtain ⟨es, hes⟩ := hsome
        unfold detect_conventions detect_spec
        rw [hes]
        rfl

/-- Claim C3 witness: the detected list of the concrete example has no
duplicates, and the spec algorithm agrees with the code on a mapping whose
zarr_conventions value is a registry list. -/
theorem detect_conventions_follows_spec_witness :
    List.Nodup ["spatial", "proj", "multiscales"] ∧
    detect_conventions [("zarr_conventions", Json.arr [Json.obj [("uuid", Json.str MULTISCALES_UUID)]])]
      = Except.ok (detect_spec [("zarr_conventions", Json.arr [Json.obj [("uuid", Json.str MULTISCALES_UUID)]])]) :=
  ⟨detect_conventions_follows_spec.1
      [("spatial:dimensions", Json.arr [Json.str "Y", Json.str "X"]),
       ("proj:code", Json.str "EPSG:4326"),
       ("multiscales", Json.obj [("layout", Json.arr [])])]
      ["spatial", "proj", "multiscales"]
      detect_conventions_follows_spec.2.2,
   detect_conventions_follows_spec.2.1 _ (Or.inr ⟨_, rfl⟩)⟩

theorem pyPatternMatch_ne_empty (v : String) (h : pyPatternMatch v = true) :
    (v == "") = false := by
  cases hv : v == "" with
  | false => rfl
  | true =>
      have : v = "" := by simpa using hv
      subst this
      rw [show pyPatternMatch "" = false from by with_unfolding_all rfl] at h
      cases h

/-- Claim C2 (amended): the at-least-one check of Proj construction is
truthiness-based, not presence-based.  Given that the three CRS fields
decode (types valid, code matching the pattern when present), construction
fails with the at-least-one error exactly when all three field values are
falsy (null or absent, empty string, empty mapping); when at least one is
truthy and a present code resolves, construction succeeds. -/
theorem proj_at_least_one_truthiness :
    ∀ (resolve : String → String → Bool) (attrs : Attrs) (c w : Option String)
      (p : Option (List (String × Json))),
    decodeCodeField (pyGetField attrs "proj:code" "code") = Except.ok c →
    decodeOptStr (pyGetField attrs "proj:wkt2" "wkt2") = Except.ok w →
    decodeOptObj (pyGetField attrs "proj:projjson" "projjson") = Except.ok p →
    ((optStrTruthy c || optStrTruthy w || optObjTruthy p) = false →
      projValidate resolve attrs = Except.error [atLeastOneMsg]) ∧
    ((optStrTruthy c || optStrTruthy w || optObjTruthy p) = true →
      (∀ v, c = some v → resolve (splitColon1 v).1 (splitColon1 v).2 = true) →
      ∃ rec, projValidate resolve attrs = Except.ok rec) := by
  intro resolve attrs c w p hc hw hp
  unfold projValidate
  rw [hc, hw, hp]
  constructor
  · intro hfalse
    simp [hfalse]
  · intro htrue hres
    simp only [htrue, if_true]
    cases c with
    | none => exact ⟨_, rfl⟩
    | some v =>
        simp only [hres v rfl, if_true]
        exact ⟨_, rfl⟩

/-- Claim C2 witness: the amended at-least-one behaviour at two concrete
inputs: with every CRS field absent the construction fails with the
at-least-one message, and with a truthy wkt2 it succeeds. -/
theorem proj_at_least_one_truthiness_witness :
    projValidate noResolve [("proj:code", Json.null)] = Except.error [atLeastOneMsg] ∧
    (∃ rec, projValidate noResolve [("proj:wkt2", Json.str "GEOGCS")] = Except.ok rec) :=
  ⟨(proj_at_least_one_truthiness noResolve [("proj:code", Json.null)] none none none
      rfl rfl rfl).1 rfl,
   (proj_at_least_one_truthiness noResolve [("proj:wkt2", Json.str "GEOGCS")]
      none (some "GEOGCS") none rfl rfl rfl).2 rfl (fun v hv => by cases hv)⟩

/-- Claim C5: for every present code string, a pattern mismatch fails
construction with the message naming the offending value and the
AUTHORITY:CODE pattern (first conjunct), and a pattern match leads to the
authority lookup on the parts around the first colon, whose failure — the
lookup being the external capability hypothesis `resolve` — fails
construction with the message naming the rejected code and stating that it
does not resolve (second conjunct, for records whose other CRS fields are
type-valid). -/
theorem proj_code_pattern_and_resolution :
    ∀ (resolve : String → String → Bool) (attrs : Attrs) (v : String),
    pyGetField attrs "proj:code" "code" = some (Json.str v) →
    (pyPatternMatch v = false →
      ∃ es, projValidate resolve attrs = Except.error es ∧ patternMsg v ∈ es) ∧
    (pyPatternMatch v = true →
      ∀ (w : Option String) (p : Option (List (String × Json))),
      decodeOptStr (pyGetField attrs "proj:wkt2" "wkt2") = Except.ok w →
      decodeOptObj (pyGetField attrs "proj:projjson" "projjson") = Except.ok p →
      resolve (splitColon1 v).1 (splitColon1 v).2 = false →
      projValidate resolve attrs = Except.error [resolveMsg v]) := by
  intro resolve attrs v hv
  constructor
  · intro hpat
    have hcode : decodeCodeField (pyGetField attrs "proj:code" "code")
        = Except.error (patternMsg v) := by
      rw [hv]
      simp [decodeCodeField, hpat]
    refine ⟨patternMsg v :: (errsOfE (decodeOptStr (pyGetField attrs "proj:wkt2" "wkt2"))
        ++ errsOfE (decodeOptObj (pyGetField attrs "proj:projjson" "projjson"))), ?_, ?_⟩
    · unfold projValidate
      rw [hcode]
      rfl
    · exact List.mem_cons_self _ _
  · intro hpat w p hw hp hres
    have hcode : decodeCodeField (pyGetField attrs "proj:code" "code")
        = Except.ok (some v) := by
      rw [hv]
      simp [decodeCodeField, hpat]
    have hvne := pyPatternMatch_ne_empty v hpat
    unfold projValidate
    rw [hcode, hw, hp]
    simp [optStrTruthy, hvne, hres]

/-- Claim C5 witness: a malformed code is rejected with the pattern
message, and the well-formed EPSG:99999 is rejected with the resolution
message under an authority oracle that resolves nothing. -/
theorem proj_code_pattern_and_resolution_witness :
    (∃ es, projValidate noResolve [("proj:code", Json.str "not-a-valid-code")]
        = Except.error es ∧ patternMsg "not-a-valid-code" ∈ es) ∧
    projValidate noResolve [("proj:code", Json.str "EPSG:99999")]
      = Except.error [resolveMsg "EPSG:99999"] :=
  ⟨(proj_code_pattern_and_resolution noResolve [("proj:code", Json.str "not-a-valid-code")]
      "not-a-valid-code" rfl).1 (by with_unfolding_all rfl),
   (proj_code_pattern_and_resolution noResolve [("proj:code", Json.str "EPSG:99999")]
      "EPSG:99999" rfl).2 (by with_unfolding_all rfl) none none rfl rfl rfl⟩

/-- Claim C6: whenever the zarr_conventions key exists in the input and
validate_attrs returns a result mapping, that mapping has an entry under
the zarr_conventions key holding exactly the registry well-formedness
errors, whatever conventions were requested or detected; and every
registry entry that is a mapping whose uuid, schema_url and spec_url are
all missing or falsy contributes the error naming the candidate
identifiers and the entry index. -/
theorem validate_attrs_always_checks_registry :
    ∀ (resolve : String → String → Bool) (attrs : Attrs)
      (conventions : Option (List String)) (r : List (String × List String)),
    validate_attrs resolve attrs conventions = Except.ok r →
    hasKey attrs "zarr_conventions" = true →
    pyLookup r "zarr_conventions" = some (validate_zarr_conventions attrs).2 ∧
    (∀ (l : List Json) (i : Nat) (kvs : List (String × Json)),
      pyLookup attrs "zarr_conventions" = some (Json.arr l) →
      l[i]? = some (Json.obj kvs) →
      (pyTruthy (pyGet kvs "uuid") || pyTruthy (pyGet kvs "schema_url")
        || pyTruthy (pyGet kvs "spec_url")) = false →
      missingIdMsg i ∈ (validate_zarr_conventions attrs).2) := by
  intro resolve attrs conventions r hok hkey
  constructor
  · unfold validate_attrs at hok
    cases hdet : (match conventions with
        | none => detect_conventions attrs
        | some cs => Except.ok cs) with
    | error e => rw [hdet] at hok; cases hok
    | ok convs =>
        rw [hdet] at hok
        replace hok :
            (match multiscalesSegment attrs convs with
              | Except.error e => Except.error e
              | Except.ok s3 =>
                  Except.ok (spatialSegment attrs convs ++ projSegment resolve attrs convs
                    ++ s3 ++ zarrSegment attrs)) = Except.ok r := hok
        cases hms : multiscalesSegment attrs convs with
        | error e => rw [hms] at hok; cases hok
        | ok s3 =>
            rw [hms] at hok
            replace hok :
                Except.ok (spatialSegment attrs convs ++ projSegment resolve attrs convs
                  ++ s3 ++ zarrSegment attrs) = Except.ok r := hok
            injection hok with hok
            subst hok
            rw [pyLookup_append_none _ _ _
              (pyLookup_append_none₂ _ _ _
                (pyLookup_append_none₂ _ _ _ (spatialSegment_lookup attrs convs)
                  (projSegment_lookup resolve attrs convs))
                (multiscalesSegment_lookup attrs convs s3 hms))]
            exact zarrSegment_lookup attrs hkey
  · intro l i kvs hl hgi hfalsy
    unfold validate_zarr_conventions
    rw [hl]
    show missingIdMsg i ∈ (enumErrors 0 l)
    have := enumErrors_mem l 0 i kvs hgi hfalsy
    simpa using this

/-- Claim C6 witness: a registry-only mapping, validated with an explicit
empty convention list, still gets the registry entry in its result, and
its identifier-free entry produces the indexed error. -/
theorem validate_attrs_always_checks_registry_witness :
    pyLookup [("zarr_conventions", [missingIdMsg 0])] "zarr_conventions"
      = some (validate_zarr_conventions
          [("zarr_conventions", Json.arr [Json.obj [("name", Json.str "custom")]])]).2 ∧
    missingIdMsg 0 ∈ (validate_zarr_conventions
          [("zarr_conventions", Json.arr [Json.obj [("name", Json.str "custom")]])]).2 :=
  ⟨(validate_attrs_always_checks_registry noResolve
      [("zarr_conventions", Json.arr [Json.obj [("name", Json.str "custom")]])]
      (some []) [("zarr_conventions", [missingIdMsg 0])]
      (by with_unfolding_all rfl) rfl).1,
   (validate_attrs_always_checks_registry noResolve
      [("zarr_conventions", Json.arr [Json.obj [("name", Json.str "custom")]])]
      (some []) [("zarr_conventions", [missingIdMsg 0])]
      (by with_unfolding_all rfl) rfl).2 _ 0 _ rfl rfl rfl⟩

theorem normPair_lt (p : ℚ × ℚ) (h : p.1 ≠ p.2) : (normPair p).1 < (normPair p).2 := by
  unfold normPair
  split
  · next hgt => simpa using hgt
  · next hng => exact lt_of_le_of_ne (le_of_not_lt hng) h

theorem create_proj_wkt2 (resolve : String → String → Bool) (w : String)
    (hw : (w == "") = false) :
    create_proj_attrs resolve none (some w) none
      = Except.ok [("proj:wkt2", Json.str w)] := by
  have h1 : projValidate resolve
      [("code", encOptStr none), ("wkt2", encOptStr (some w)), ("projjson", encOptObj none)]
      = if optStrTruthy none || optStrTruthy (some w) || optObjTruthy none then
          Except.ok ⟨none, some w, none,
            projExtras [("code", encOptStr none), ("wkt2", encOptStr (some w)),
              ("projjson", encOptObj none)]⟩
        else Except.error [atLeastOneMsg] := by
    unfold projValidate
    rw [show decodeCodeField (pyGetField [("code", encOptStr none),
          ("wkt2", encOptStr (some w)), ("projjson", encOptObj none)] "proj:code" "code")
        = Except.ok none from rfl,
      show decodeOptStr (pyGetField [("code", encOptStr none),
          ("wkt2", encOptStr (some w)), ("projjson", encOptObj none)] "proj:wkt2" "wkt2")
        = Except.ok (some w) from rfl,
      show decodeOptObj (pyGetField [("code", encOptStr none),
          ("wkt2", encOptStr (some w)), ("projjson", encOptObj none)] "proj:projjson" "projjson")
        = Except.ok none from rfl]
  have hcond : (optStrTruthy none || optStrTruthy (some w) || optObjTruthy none) = true := by
    simp [optStrTruthy, optObjTruthy, hw]
  unfold create_proj_attrs
  rw [h1, hcond]
  rfl

/-- Claim C7 (amended): from_geotransform reorders the GDAL tuple
(c, a, b, f, d, e) into the convention transform [a, b, c, d, e, f] for
every input (and in particular for the concrete example of the claim,
second conjunct), and the derived bounding box is strictly ordered —
xmin < xmax and ymin < ymax, whatever the sign of e — for positive extents
and nonzero pixel sizes PROVIDED the rotation coefficients b and d are
zero; with a nonzero rotation coefficient the box can degenerate, see the
counterexample. -/
theorem from_geotransform_transform_and_bbox :
    (∀ (resolve : String → String → Bool) (c a b f d e : ℚ) (height width : Int)
       (wkt : String), wkt ≠ "" →
      ∃ m x0 y0 x1 y1,
        from_geotransform resolve c a b f d e wkt height width none = Except.ok m ∧
        pyLookup m "spatial:transform" = some (Json.arr [Json.num a, Json.num b,
          Json.num c, Json.num d, Json.num e, Json.num f]) ∧
        pyLookup m "spatial:bbox" = some (Json.arr [Json.num x0, Json.num y0,
          Json.num x1, Json.num y1]) ∧
        (b = 0 → d = 0 → a ≠ 0 → e ≠ 0 → 0 < height → 0 < width →
          x0 < x1 ∧ y0 < y1)) ∧
    (from_geotransform noResolve 500000 10 0 5000000 0 (-10) "WKT" 1000 1000 none).map
        (fun m => pyLookup m "spatial:transform")
      = Except.ok (some (Json.arr [Json.num 10, Json.num 0, Json.num 500000,
          Json.num 0, Json.num (-10), Json.num 5000000])) := by
  constructor
  · intro resolve c a b f d e height width wkt hwkt
    have hw : (wkt == "") = false := beq_eq_false_iff_ne.mpr hwkt
    refine ⟨[("spatial:dimensions", Json.arr [Json.str "Y", Json.str "X"]),
        ("spatial:bbox", Json.arr
          [Json.num (normPair (c, c + a * (width : ℚ) + b * (height : ℚ))).1,
           Json.num (normPair (f + d * (width : ℚ) + e * (height : ℚ), f)).1,
           Json.num (normPair (c, c + a * (width : ℚ) + b * (height : ℚ))).2,
           Json.num (normPair (f + d * (width : ℚ) + e * (height : ℚ), f)).2]),
        ("spatial:transform_type", Json.str "affine"),
        ("spatial:transform", Json.arr [Json.num a, Json.num b, Json.num c,
          Json.num d, Json.num e, Json.num f]),
        ("spatial:shape", Json.arr [Json.num (height : ℚ), Json.num (width : ℚ)]),
        ("spatial:registration", Json.str "pixel"),
        ("proj:wkt2", Json.str wkt)],
        (normPair (c, c + a * (width : ℚ) + b * (height : ℚ))).1,
        (normPair (f + d * (width : ℚ) + e * (height : ℚ), f)).1,
        (normPair (c, c + a * (width : ℚ) + b * (height : ℚ))).2,
        (normPair (f + d * (width : ℚ) + e * (height : ℚ), f)).2, ?_, ?_, ?_, ?_⟩
    · unfold from_geotransform
      rw [create_proj_wkt2 resolve wkt hw]
      with_unfolding_all rfl
    · with_unfolding_all rfl
    · with_unfolding_all rfl
    · intro hb hd ha he hh hww
      subst hb
      subst hd
      have hwq : ((width : Int) : ℚ) ≠ 0 := Int.cast_ne_zero.mpr (by omega)
      have hhq : ((height : Int) : ℚ) ≠ 0 := Int.cast_ne_zero.mpr (by omega)
      constructor
      · apply normPair_lt
        show c ≠ c + a * (width : ℚ) + 0 * (height : ℚ)
        intro heq
        exact absurd (by linarith : a * (width : ℚ) = 0) (mul_ne_zero ha hwq)
      · apply normPair_lt
        show f + 0 * (width : ℚ) + e * (height : ℚ) ≠ f
        intro heq
        exact absurd (by linarith : e * (height : ℚ) = 0) (mul_ne_zero he hhq)
  · with_unfolding_all rfl

/-- Claim C7 witness: the amended statement applied at the concrete grid
transform of the claim. -/
theorem from_geotransform_transform_and_bbox_witness :
    ∃ m x0 y0 x1 y1,
      from_geotransform noResolve 500000 10 0 5000000 0 (-10) "WKT" 1000 1000 none
        = Except.ok m ∧
      pyLookup m "spatial:transform" = some (Json.arr [Json.num 10, Json.num 0,
        Json.num 500000, Json.num 0, Json.num (-10), Json.num 5000000]) ∧
      pyLookup m "spatial:bbox" = some (Json.arr [Json.num x0, Json.num y0,
        Json.num x1, Json.num y1]) ∧
      ((0 : ℚ) = 0 → (0 : ℚ) = 0 → (10 : ℚ) ≠ 0 → (-10 : ℚ) ≠ 0 →
        (0 : Int) < 1000 → (0 : Int) < 1000 → x0 < x1 ∧ y0 < y1) :=
  from_geotransform_transform_and_bbox.1 noResolve 500000 10 0 5000000 0 (-10)
    1000 1000 "WKT" (by decide)

/-- Claim C7 counterexample: with the nonzero rotation coefficient b = -1,
pixel sizes a = 1 and e = -1 and the positive shape (1, 1), the derived
bounding box is [0, -1, 0, 0]: its xmin and xmax are both 0, so the claimed
strict inequality xmin < xmax fails although a and e are nonzero and the
extents positive. -/
theorem from_geotransform_bbox_degenerate_cex :
    (from_geotransform noResolve 0 1 (-1) 0 0 (-1) "WKT" 1 1 none).map
        (fun m => pyLookup m "spatial:bbox")
      = Except.ok (some (Json.arr [Json.num 0, Json.num (-1), Json.num 0, Json.num 0])) ∧
    ¬ ((0 : ℚ) < 0) :=
  ⟨by with_unfolding_all rfl, lt_irrefl 0⟩
